import Mathlib

/-!
Verification of the feature-encoding, scenario-generation, baseline-selection and
model-lifecycle core of the Process-Simulation backend.

The definitions below are a shallow embedding of the Python sources:
  backend/feature_extraction.py  (transition matrices, entity vectors, feature vector)
  backend/train_model.py         (training-time feature extractor with outcome block)
  backend/scenario_generator.py  (seeded entity generation)
  backend/ml_model.py            (model manager predict, denormalization)
  backend/main.py                (simulate_process baseline short-circuit, response record)

Machine floats are modelled as rationals; Python dict lookups with defaults are
modelled with Option/getD; Python exceptions (ValueError from int(), the guard in
ModelManager.predict) are modelled with Except.
-/

/-- The 13 canonical O2C activity names (feature_extraction.ALL_EVENTS). -/
def ALL_EVENTS : List String :=
  [ "Receive Customer Order"
  , "Validate Customer Order"
  , "Perform Credit Check"
  , "Approve Order"
  , "Schedule Order Fulfillment"
  , "Generate Pick List"
  , "Pack Items"
  , "Generate Shipping Label"
  , "Ship Order"
  , "Generate Invoice"
  , "Receive Payment"
  , "Close Order"
  , "Cancel Order" ]

def FREQ_MATRIX_DIM : Nat := 13 * 13

def DURATION_MATRIX_DIM : Nat := 13 * 13

def USER_VECTOR_DIM : Nat := 7

def ITEMS_MATRIX_DIM : Nat := 24 * 2

def SUPPLIER_VECTOR_DIM : Nat := 16

/-- feature_extraction.TOTAL_FEATURE_DIM = 409. -/
def TOTAL_FEATURE_DIM : Nat :=
  FREQ_MATRIX_DIM + DURATION_MATRIX_DIM + USER_VECTOR_DIM + ITEMS_MATRIX_DIM +
    SUPPLIER_VECTOR_DIM

/-- Helper for the dict comprehension `event_to_idx = {event: idx for idx, event in
enumerate(ALL_EVENTS)}`: position of a name in a list, counting from `k`. -/
def idxOfAux (name : String) : List String → Nat → Option Nat
  | [], _ => none
  | e :: rest, k => if e = name then some k else idxOfAux name rest (k + 1)

/-- `event_to_idx.get(name)`: index of `name` in ALL_EVENTS, none if absent. -/
def eventToIdx (name : String) : Option Nat := idxOfAux name ALL_EVENTS 0

/-- One edge dict. `efrom`/`eto` model `edge.get('from', '')` / `edge.get('to', '')`;
`duration_hours` and `avgDays` are `none` when the key is absent. -/
structure Edge where
  efrom : String := ""
  eto : String := ""
  duration_hours : Option ℚ := none
  avgDays : Option ℚ := none
deriving DecidableEq

/-- `edge.get('duration_hours', 0) or edge.get('avgDays', 0) * 24 or 0`:
Python `or` on numbers returns the first nonzero operand, else the final 0. -/
def edgeDurationHours (e : Edge) : ℚ :=
  let dh := e.duration_hours.getD 0
  if dh ≠ 0 then dh
  else
    let ad := e.avgDays.getD 0 * 24
    if ad ≠ 0 then ad else 0

/-- `duration_minutes = duration_hours * 60`. -/
def edgeDurationMinutes (e : Edge) : ℚ := edgeDurationHours e * 60

/-- A 13x13 numpy matrix, as a cell function (queried only at 0..12). -/
def Mat13 : Type := Nat → Nat → ℚ

def zeroMat : Mat13 := fun _ _ => 0

/-- `matrix[i, j] = v`. -/
def matSet (m : Mat13) (i j : Nat) (v : ℚ) : Mat13 :=
  fun a b => if a = i ∧ b = j then v else m a b

/-- Loop body of build_transition_matrix_frequency: membership test on both
endpoints, then `matrix[from_idx, to_idx] += 1`. -/
def freqStep (m : Mat13) (e : Edge) : Mat13 :=
  match eventToIdx e.efrom, eventToIdx e.eto with
  | some i, some j => matSet m i j (m i j + 1)
  | _, _ => m

/-- build_transition_matrix_frequency (the unused `activities` parameter is kept
from the source signature); the flattening to 169 entries is `matFlatten`. -/
def build_transition_matrix_frequency (_activities : List String)
    (edges : List Edge) : Mat13 :=
  edges.foldl freqStep zeroMat

/-- Loop body of build_transition_matrix_duration:
`matrix[from_idx, to_idx] = duration_minutes` (assignment, not accumulation). -/
def durStep (m : Mat13) (e : Edge) : Mat13 :=
  match eventToIdx e.efrom, eventToIdx e.eto with
  | some i, some j => matSet m i j (edgeDurationMinutes e)
  | _, _ => m

/-- build_transition_matrix_duration. -/
def build_transition_matrix_duration (_activities : List String)
    (edges : List Edge) : Mat13 :=
  edges.foldl durStep zeroMat

/-- numpy row-major `matrix.flatten()` of a 13x13 matrix. -/
def matFlatten (m : Mat13) : List ℚ :=
  (List.range (13 * 13)).map (fun k => m (k / 13) (k % 13))

/-- Whether an edge has both endpoints in the catalog, at the given indices. -/
def edgeMatches (i j : Nat) (e : Edge) : Bool :=
  decide (eventToIdx e.efrom = some i ∧ eventToIdx e.eto = some j)

/-- The last edge of the list whose endpoints resolve to the pair (i, j). -/
def lastMatch (i j : Nat) (es : List Edge) : Option Edge :=
  es.foldl (fun acc e => if edgeMatches i j e then some e else acc) none

-- Cell-level characterization lemmas (proved by reverse list induction, matching
-- the left-to-right processing of the edge loop).

lemma freq_foldl_cell (es : List Edge) (i j : Nat) :
    (es.foldl freqStep zeroMat) i j =
      ((es.filter (edgeMatches i j)).length : ℚ) := by
  induction es using List.reverseRecOn with
  | nil => simp [zeroMat]
  | append_singleton es e ih =>
    rw [List.foldl_append]
    by_cases h : edgeMatches i j e = true
    · have hm := of_decide_eq_true h
      simp only [List.foldl_cons, List.foldl_nil]
      rw [show freqStep (es.foldl freqStep zeroMat) e =
            matSet (es.foldl freqStep zeroMat) i j
              ((es.foldl freqStep zeroMat) i j + 1) by
        unfold freqStep
        rw [hm.1, hm.2]]
      simp [matSet, ih, List.filter_append, h]
    · have : freqStep (es.foldl freqStep zeroMat) e i j =
          (es.foldl freqStep zeroMat) i j := by
        unfold freqStep
        rcases hf : eventToIdx e.efrom with _ | a
        · rfl
        · rcases ht : eventToIdx e.eto with _ | b
          · rfl
          · have : ¬(i = a ∧ j = b) := by
              intro ⟨ha, hb⟩
              exact h (decide_eq_true ⟨by rw [hf, ha], by rw [ht, hb]⟩)
            simp [matSet, this]
      simp only [List.foldl_cons, List.foldl_nil]
      rw [this, ih]
      simp [List.filter_append, h]

lemma dur_foldl_cell (es : List Edge) (i j : Nat) :
    (es.foldl durStep zeroMat) i j =
      (match lastMatch i j es with
       | some e => edgeDurationMinutes e
       | none => 0) := by
  induction es using List.reverseRecOn with
  | nil => simp [zeroMat, lastMatch]
  | append_singleton es e ih =>
    rw [List.foldl_append]
    have hlast : lastMatch i j (es ++ [e]) =
        (if edgeMatches i j e then some e else lastMatch i j es) := by
      unfold lastMatch
      rw [List.foldl_append]
      rfl
    by_cases h : edgeMatches i j e = true
    · have hm := of_decide_eq_true h
      simp only [List.foldl_cons, List.foldl_nil]
      rw [show durStep (es.foldl durStep zeroMat) e =
            matSet (es.foldl durStep zeroMat) i j (edgeDurationMinutes e) by
        unfold durStep
        rw [hm.1, hm.2]]
      rw [hlast]
      simp [matSet, h]
    · have hstep : durStep (es.foldl durStep zeroMat) e i j =
          (es.foldl durStep zeroMat) i j := by
        unfold durStep
        rcases hf : eventToIdx e.efrom with _ | a
        · rfl
        · rcases ht : eventToIdx e.eto with _ | b
          · rfl
          · have : ¬(i = a ∧ j = b) := by
              intro ⟨ha, hb⟩
              exact h (decide_eq_true ⟨by rw [hf, ha], by rw [ht, hb]⟩)
            simp [matSet, this]
      simp only [List.foldl_cons, List.foldl_nil]
      rw [hstep, ih, hlast]
      simp [h]

lemma freqStep_skip (m : Mat13) (e : Edge)
    (h : eventToIdx e.efrom = none ∨ eventToIdx e.eto = none) :
    freqStep m e = m := by
  unfold freqStep
  rcases h with h | h
  · rw [h]
  · rw [h]
    rcases eventToIdx e.efrom with _ | a <;> rfl

lemma durStep_skip (m : Mat13) (e : Edge)
    (h : eventToIdx e.efrom = none ∨ eventToIdx e.eto = none) :
    durStep m e = m := by
  unfold durStep
  rcases h with h | h
  · rw [h]
  · rw [h]
    rcases eventToIdx e.efrom with _ | a <;> rfl

/-- The concrete repeated (A, B) edge of the claim: A = catalog activity 0,
B = catalog activity 1, with an explicit duration in hours. -/
def abEdge (d : ℚ) : Edge :=
  { efrom := "Receive Customer Order", eto := "Validate Customer Order",
    duration_hours := some d }

/-- C1: for every ordered catalog pair and edge list, the frequency matrix cell
is the number of edges resolving to that pair (repeats sum), while the duration
matrix cell is the minute-converted duration of the LAST edge resolving to that
pair (later edges overwrite earlier ones); concretely, the repeated pair
[(A,B,1h),(A,B,2h)] gives frequency 2 and duration 120 minutes. -/
theorem freq_accumulates_duration_overwrites :
    (∀ (activities : List String) (edges : List Edge) (i j : Nat),
        build_transition_matrix_frequency activities edges i j =
          ((edges.filter (edgeMatches i j)).length : ℚ) ∧
        build_transition_matrix_duration activities edges i j =
          (match lastMatch i j edges with
           | some e => edgeDurationMinutes e
           | none => 0)) ∧
    build_transition_matrix_frequency [] [abEdge 1, abEdge 2] 0 1 = 2 ∧
    build_transition_matrix_duration [] [abEdge 1, abEdge 2] 0 1 = 120 := by
  refine ⟨fun activities edges i j => ⟨freq_foldl_cell edges i j,
    dur_foldl_cell edges i j⟩, ?_, ?_⟩
  · with_unfolding_all decide
  · with_unfolding_all decide

/-- C7: an edge whose endpoint name is not in the 13-name catalog is skipped by
both matrix builders: removing it from any position of the edge list leaves both
matrices (hence every cell) unchanged, and no error is possible (the builders
are total functions). -/
theorem unknown_activity_edges_ignored (e : Edge)
    (h : eventToIdx e.efrom = none ∨ eventToIdx e.eto = none) :
    ∀ (activities : List String) (es1 es2 : List Edge),
      build_transition_matrix_frequency activities (es1 ++ e :: es2) =
        build_transition_matrix_frequency activities (es1 ++ es2) ∧
      build_transition_matrix_duration activities (es1 ++ e :: es2) =
        build_transition_matrix_duration activities (es1 ++ es2) := by
  intro activities es1 es2
  constructor
  · unfold build_transition_matrix_frequency
    rw [List.foldl_append, List.foldl_append, List.foldl_cons,
      freqStep_skip _ e h]
  · unfold build_transition_matrix_duration
    rw [List.foldl_append, List.foldl_append, List.foldl_cons,
      durStep_skip _ e h]

/-- Witness for C7 at a concrete out-of-catalog edge. -/
theorem unknown_activity_edges_ignored_witness :
    build_transition_matrix_frequency []
        [{ efrom := "Mystery Step", eto := "Validate Customer Order",
           duration_hours := some 5 }] =
      build_transition_matrix_frequency [] [] ∧
    build_transition_matrix_duration []
        [{ efrom := "Mystery Step", eto := "Validate Customer Order",
           duration_hours := some 5 }] =
      build_transition_matrix_duration [] [] :=
  unknown_activity_edges_ignored
    { efrom := "Mystery Step", eto := "Validate Customer Order",
      duration_hours := some 5 }
    (Or.inl (by rfl)) [] [] []

/-- C10: the duration encoded for an edge is duration_hours when present and
nonzero, else avgDays * 24 when present and nonzero, else 0, finally converted
to minutes by * 60; and a catalog-resolvable single edge writes exactly this
value into its duration-matrix cell. -/
theorem duration_key_fallback (e : Edge) :
    (∀ h : ℚ, e.duration_hours = some h → h ≠ 0 →
        edgeDurationMinutes e = h * 60) ∧
    ((e.duration_hours = none ∨ e.duration_hours = some 0) →
      ∀ d : ℚ, e.avgDays = some d → d ≠ 0 →
        edgeDurationMinutes e = d * 24 * 60) ∧
    ((e.duration_hours = none ∨ e.duration_hours = some 0) →
      (e.avgDays = none ∨ e.avgDays = some 0) → edgeDurationMinutes e = 0) ∧
    (∀ i j : Nat, edgeMatches i j e = true →
      build_transition_matrix_duration [] [e] i j = edgeDurationMinutes e) := by
  refine ⟨?_, ?_, ?_, ?_⟩
  · intro h hd hne
    unfold edgeDurationMinutes edgeDurationHours
    simp [hd, hne]
  · intro hd d ha hne
    unfold edgeDurationMinutes edgeDurationHours
    have h24 : d * 24 ≠ 0 := mul_ne_zero hne (by norm_num)
    rcases hd with hd | hd <;> simp [hd, ha, h24]
  · intro hd ha
    unfold edgeDurationMinutes edgeDurationHours
    rcases hd with hd | hd <;> rcases ha with ha | ha <;> simp [hd, ha]
  · intro i j hm
    unfold build_transition_matrix_duration
    rw [show ([e] : List Edge).foldl durStep zeroMat = durStep zeroMat e from rfl]
    have := of_decide_eq_true hm
    unfold durStep
    rw [this.1, this.2]
    simp [matSet]

/-- Witness for C10: duration_hours explicitly 0 together with avgDays = 2 is
encoded as 2 days * 24 h * 60 min. -/
theorem duration_key_fallback_witness :
    edgeDurationMinutes { duration_hours := some 0, avgDays := some 2 } =
      2 * 24 * 60 :=
  (duration_key_fallback
      { duration_hours := some 0, avgDays := some 2 }).2.1
    (Or.inr rfl) 2 rfl (by norm_num)

/-- A value appearing as an entity identifier: Python code branches on
`isinstance(x, str)` vs `isinstance(x, (int, float))`; floats behave as their
truncation, so an integer constructor suffices for the embedding. -/
inductive EntityId where
  | str (s : String)
  | int (n : Int)
deriving DecidableEq

/-- Python `int(s)`: optional surrounding whitespace, optional sign, decimal
digits; anything else raises ValueError (modelled as Except.error; the message
of CPython additionally quotes the literal). -/
def parsePyInt (s : String) : Except String Int :=
  let t := s.trim
  let neg := t.startsWith "-"
  let core := if neg ∨ t.startsWith "+" then t.drop 1 else t
  match core.toNat? with
  | some n => .ok (if neg then -(n : Int) else (n : Int))
  | none => .error ("invalid literal for int() with base 10: " ++ s)

/-- `user_num = int(user_id[1:]) if isinstance(user_id, str) and
user_id.startswith(P) else (int(user_id) if isinstance(user_id, (int, float))
else 0)` — shared shape of the id-number extraction in build_user_vector,
build_items_matrix and build_supplier_vector. -/
def entityIdNum (pfx : String) (id : EntityId) : Except String Int :=
  match id with
  | .str s => if s.startsWith pfx then parsePyInt (s.drop 1) else .ok 0
  | .int n => .ok n

/-- `vector[i] = x` on a numpy 1-d array modelled as an index function. -/
def vecSet (v : Nat → ℚ) (i : Nat) (x : ℚ) : Nat → ℚ :=
  fun j => if j = i then x else v j

/-- The loop of build_user_vector / build_supplier_vector: parse each id, set
the 1-indexed slot to 1 when in range 1..slots, propagate the ValueError of a
failing `int()`. -/
def buildIndicatorAux (numOf : EntityId → Except String Int) (slots : Nat)
    (v : Nat → ℚ) : List EntityId → Except String (Nat → ℚ)
  | [] => .ok v
  | id :: rest =>
    match numOf id with
    | .error e => .error e
    | .ok n =>
      buildIndicatorAux numOf slots
        (if 1 ≤ n ∧ n ≤ (slots : Int) then vecSet v (n.toNat - 1) 1 else v) rest

/-- build_user_vector (feature_extraction.py, num_users = 7). -/
def build_user_vector (user_ids : List EntityId) : Except String (Nat → ℚ) :=
  buildIndicatorAux (entityIdNum "U") 7 (fun _ => 0) user_ids

/-- build_supplier_vector (feature_extraction.py, num_suppliers = 16). -/
def build_supplier_vector (supplier_ids : List EntityId) :
    Except String (Nat → ℚ) :=
  buildIndicatorAux (entityIdNum "S") 16 (fun _ => 0) supplier_ids

/-- One item dict; `none` models an absent key (`item.get(k, 0)` defaults). -/
structure ItemData where
  item_id : Option EntityId := none
  name : Option String := none
  category : Option String := none
  quantity : Option ℚ := none
  unit_price : Option ℚ := none
  line_total : Option ℚ := none
deriving DecidableEq

/-- The loop of build_items_matrix: per item, `matrix[idx, 0] = quantity`,
`matrix[idx, 1] = line_total` for ids I001..I024. -/
def buildItemsAux (numOf : EntityId → Except String Int) (m : Nat → ℚ × ℚ) :
    List ItemData → Except String (Nat → ℚ × ℚ)
  | [] => .ok m
  | item :: rest =>
    match numOf (item.item_id.getD (.int 0)) with
    | .error e => .error e
    | .ok n =>
      buildItemsAux numOf
        (if 1 ≤ n ∧ n ≤ 24 then
          (fun j => if j = n.toNat - 1 then
            (item.quantity.getD 0, item.line_total.getD 0) else m j)
        else m) rest

/-- build_items_matrix (feature_extraction.py, num_items = 24). -/
def build_items_matrix (items_data : List ItemData) :
    Except String (Nat → ℚ × ℚ) :=
  buildItemsAux (entityIdNum "I") (fun _ => (0, 0)) items_data

/-- numpy flatten of a 1-d slot function to its first `n` entries. -/
def vecFlatten (v : Nat → ℚ) (n : Nat) : List ℚ :=
  (List.range n).map v

/-- Row-major flatten of the 24 x 2 items matrix: interleaved quantity/amount. -/
def itemsFlatten (m : Nat → ℚ × ℚ) : List ℚ :=
  (List.range (24 * 2)).map (fun k => if k % 2 = 0 then (m (k / 2)).1
    else (m (k / 2)).2)

/-- extract_features_from_scenario with scalers = None: concatenation of the
five raw blocks, in source order; an int() ValueError from one of the entity
builders propagates (user vector first, then items, then suppliers). -/
def extract_features_from_scenario (activities : List String)
    (edges : List Edge) (users_involved : List EntityId)
    (items_involved : List ItemData) (suppliers_involved : List EntityId) :
    Except String (List ℚ) :=
  match build_user_vector users_involved with
  | .error e => .error e
  | .ok user_vector =>
    match build_items_matrix items_involved with
    | .error e => .error e
    | .ok items_matrix =>
      match build_supplier_vector suppliers_involved with
      | .error e => .error e
      | .ok supplier_vector =>
        .ok (matFlatten (build_transition_matrix_frequency activities edges) ++
          matFlatten (build_transition_matrix_duration activities edges) ++
          vecFlatten user_vector 7 ++
          itemsFlatten items_matrix ++
          vecFlatten supplier_vector 16)

lemma indicatorAux_binary (numOf : EntityId → Except String Int) (slots : Nat) :
    ∀ (ids : List EntityId) (v : Nat → ℚ), (∀ i, v i = 0 ∨ v i = 1) →
      ∀ w, buildIndicatorAux numOf slots v ids = .ok w →
        ∀ i, w i = 0 ∨ w i = 1 := by
  intro ids
  induction ids with
  | nil =>
    intro v hv w hw i
    unfold buildIndicatorAux at hw
    cases hw
    exact hv i
  | cons id rest ih =>
    intro v hv w hw i
    unfold buildIndicatorAux at hw
    rcases hn : numOf id with e | n <;> rw [hn] at hw
    · cases hw
    · refine ih _ ?_ w hw i
      intro k
      by_cases hr : 1 ≤ n ∧ n ≤ (slots : Int)
      · rw [if_pos hr]
        unfold vecSet
        by_cases hk : k = n.toNat - 1
        · simp [hk]
        · simp only [hk, if_false]
          exact hv k
      · rw [if_neg hr]
        exact hv k

lemma vecSet_idem (v : Nat → ℚ) (i : Nat) (x : ℚ) :
    vecSet (vecSet v i x) i x = vecSet v i x := by
  funext k
  unfold vecSet
  by_cases hk : k = i <;> simp [hk]

lemma indicatorAux_dup (numOf : EntityId → Except String Int) (slots : Nat)
    (v : Nat → ℚ) (id : EntityId) (rest : List EntityId) :
    buildIndicatorAux numOf slots v (id :: id :: rest) =
      buildIndicatorAux numOf slots v (id :: rest) := by
  rcases hn : numOf id with e | n
  · simp [buildIndicatorAux, hn]
  · by_cases hr : 1 ≤ n ∧ n ≤ (slots : Int)
    · simp [buildIndicatorAux, hn, hr, vecSet_idem]
    · simp [buildIndicatorAux, hn, hr]

lemma indicatorAux_skip (numOf : EntityId → Except String Int) (slots : Nat)
    (v : Nat → ℚ) (id : EntityId) (rest : List EntityId) (n : Int)
    (hn : numOf id = .ok n) (hout : ¬(1 ≤ n ∧ n ≤ (slots : Int))) :
    buildIndicatorAux numOf slots v (id :: rest) =
      buildIndicatorAux numOf slots v rest := by
  conv_lhs => unfold buildIndicatorAux
  rw [hn]
  simp only [hout, if_false]

/-- C9 (amended): user/supplier vectors are 0/1-valued; a repeated identifier
is idempotent; an identifier whose parsed number is out of range (1..7 users,
1..16 suppliers) leaves the vector unchanged — but a P-prefixed identifier
whose numeric part fails int() raises a ValueError instead of being ignored
(see the counterexample theorem). -/
theorem indicator_vectors_binary_idempotent_lenient :
    (∀ ids w, build_user_vector ids = .ok w → ∀ i, w i = 0 ∨ w i = 1) ∧
    (∀ ids w, build_supplier_vector ids = .ok w → ∀ i, w i = 0 ∨ w i = 1) ∧
    (∀ id rest, build_user_vector (id :: id :: rest) =
      build_user_vector (id :: rest)) ∧
    (∀ id rest, build_supplier_vector (id :: id :: rest) =
      build_supplier_vector (id :: rest)) ∧
    (∀ id rest n, entityIdNum "U" id = .ok n → ¬(1 ≤ n ∧ n ≤ 7) →
      build_user_vector (id :: rest) = build_user_vector rest) ∧
    (∀ id rest n, entityIdNum "S" id = .ok n → ¬(1 ≤ n ∧ n ≤ 16) →
      build_supplier_vector (id :: rest) = build_supplier_vector rest) := by
  refine ⟨?_, ?_, ?_, ?_, ?_, ?_⟩
  · exact fun ids w hw =>
      indicatorAux_binary (entityIdNum "U") 7 ids _ (fun _ => Or.inl rfl) w hw
  · exact fun ids w hw =>
      indicatorAux_binary (entityIdNum "S") 16 ids _ (fun _ => Or.inl rfl) w hw
  · exact fun id rest => indicatorAux_dup (entityIdNum "U") 7 _ id rest
  · exact fun id rest => indicatorAux_dup (entityIdNum "S") 16 _ id rest
  · exact fun id rest n hn hout =>
      indicatorAux_skip (entityIdNum "U") 7 _ id rest n hn hout
  · exact fun id rest n hn hout =>
      indicatorAux_skip (entityIdNum "S") 16 _ id rest n hn hout

/-- Witness for C9: the out-of-range numeric identifier 99 is ignored. -/
theorem indicator_vectors_witness :
    build_user_vector [.int 99] = build_user_vector [] :=
  indicator_vectors_binary_idempotent_lenient.2.2.2.2.1 (.int 99) [] 99 rfl
    (by decide)

/-- C9 counterexample: a U-prefixed identifier whose tail is not numeric does
NOT leave the vector unchanged — build_user_vector propagates the int()
ValueError (so no vector is returned at all). -/
theorem user_vector_parse_failure_raises :
    build_user_vector [.str "Uxx"] =
      .error ("invalid literal for int() with base 10: " ++ "xx") := by
  with_unfolding_all rfl

lemma extract_ok_shape (activities : List String) (edges : List Edge)
    (users : List EntityId) (items : List ItemData)
    (suppliers : List EntityId) (v : List ℚ)
    (h : extract_features_from_scenario activities edges users items
      suppliers = .ok v) :
    ∃ uv im sv, build_user_vector users = .ok uv ∧
      build_items_matrix items = .ok im ∧
      build_supplier_vector suppliers = .ok sv ∧
      v = matFlatten (build_transition_matrix_frequency activities edges) ++
        matFlatten (build_transition_matrix_duration activities edges) ++
        vecFlatten uv 7 ++ itemsFlatten im ++ vecFlatten sv 16 := by
  unfold extract_features_from_scenario at h
  rcases hu : build_user_vector users with e | uv <;> rw [hu] at h
  · cases h
  rcases hi : build_items_matrix items with e | im <;> rw [hi] at h
  · cases h
  rcases hs : build_supplier_vector suppliers with e | sv <;> rw [hs] at h
  · cases h
  cases h
  exact ⟨uv, im, sv, rfl, rfl, rfl, rfl⟩

lemma extract_ok_length (activities : List String) (edges : List Edge)
    (users : List EntityId) (items : List ItemData)
    (suppliers : List EntityId) (v : List ℚ)
    (h : extract_features_from_scenario activities edges users items
      suppliers = .ok v) :
    v.length = TOTAL_FEATURE_DIM := by
  obtain ⟨uv, im, sv, -, -, -, hv⟩ :=
    extract_ok_shape activities edges users items suppliers v h
  subst hv
  simp only [List.length_append, matFlatten, vecFlatten, itemsFlatten,
    List.length_map, List.length_range]
  rfl

set_option maxRecDepth 16384 in
/-- C6 (amended): whenever the unscaled feature encoding returns a vector —
any activity-list size, any edge list, any entity assignment whose identifiers
parse — that vector has the fixed length 409; input size never resizes it, and
the empty scenario encodes to the all-zero vector of that length.  (For entity
identifiers whose numeric part fails int() the encoder raises instead of
returning a vector: see the counterexample theorem.) -/
theorem feature_vector_fixed_length :
    (∀ (activities : List String) (edges : List Edge)
        (users : List EntityId) (items : List ItemData)
        (suppliers : List EntityId) (v : List ℚ),
      extract_features_from_scenario activities edges users items suppliers =
        .ok v → v.length = TOTAL_FEATURE_DIM) ∧
    extract_features_from_scenario [] [] [] [] [] =
      .ok (List.replicate TOTAL_FEATURE_DIM 0) := by
  constructor
  · exact fun activities edges users items suppliers v h =>
      extract_ok_length activities edges users items suppliers v h
  · with_unfolding_all rfl

/-- Witness for C6: the encoder output on the empty scenario has length 409. -/
theorem feature_vector_fixed_length_witness :
    (List.replicate TOTAL_FEATURE_DIM (0 : ℚ)).length = TOTAL_FEATURE_DIM :=
  feature_vector_fixed_length.1 [] [] [] [] []
    (List.replicate TOTAL_FEATURE_DIM 0) feature_vector_fixed_length.2

/-- C6 counterexample: for an entity assignment containing the malformed user
identifier "Ua" the encoder does not return a vector of any length — the int()
ValueError propagates. -/
theorem feature_vector_raises_on_malformed_id :
    extract_features_from_scenario [] [] [.str "Ua"] [] [] =
      .error ("invalid literal for int() with base 10: " ++ "a") := by
  with_unfolding_all rfl

/-- train_model.py id extraction: `int(x[1:]) if isinstance(x, str) and
x.startswith(P) else int(x)` — unlike feature_extraction.py, a non-prefixed
string is fed to int() directly. -/
def trainEntityIdNum (pfx : String) (id : EntityId) : Except String Int :=
  match id with
  | .str s => if s.startsWith pfx then parsePyInt (s.drop 1) else parsePyInt s
  | .int n => .ok n

/-- The consecutive-event pairs `(order_events[i], order_events[i+1])`. -/
def trainPairs (events : List (String × ℚ)) :
    List ((String × ℚ) × (String × ℚ)) :=
  events.zip events.tail

/-- train_model.py frequency matrix over consecutive event pairs. -/
def train_freq_matrix (events : List (String × ℚ)) : Mat13 :=
  (trainPairs events).foldl (fun m p =>
    match eventToIdx p.1.1, eventToIdx p.2.1 with
    | some i, some j => matSet m i j (m i j + 1)
    | _, _ => m) zeroMat

/-- train_model.py duration matrix: cell set to the duration_minutes of the
pair's first event (overwrite). -/
def train_duration_matrix (events : List (String × ℚ)) : Mat13 :=
  (trainPairs events).foldl (fun m p =>
    match eventToIdx p.1.1, eventToIdx p.2.1 with
    | some i, some j => matSet m i j p.1.2
    | _, _ => m) zeroMat

/-- train_model.py baseline_activities (10 entries). -/
def BASELINE_ACTIVITIES : List String :=
  [ "Receive Customer Order", "Validate Customer Order",
    "Perform Credit Check", "Approve Order", "Schedule Order Fulfillment",
    "Generate Pick List", "Pack Items", "Generate Shipping Label",
    "Ship Order", "Generate Invoice" ]

/-- Python `list.index(x)` (guarded by membership at every call site). -/
def pyIndexAux (x : String) : List String → Nat → Nat
  | [], _ => 0
  | e :: rest, k => if e = x then k else pyIndexAux x rest (k + 1)

/-- The 8 structural outcome indicators of train_model.py (section "6. Outcome
features"): rejection/return/cancellation/completion flags, completeness
ratio, normalized rejection position, revenue flag, discount flag. -/
def outcome_features (activities : List String) : List ℚ :=
  let has_rejection : ℚ := if "Reject Order" ∈ activities then 1 else 0
  let has_return : ℚ := if "Process Return Request" ∈ activities then 1 else 0
  let has_cancellation : ℚ := if "Cancel Order" ∈ activities then 1 else 0
  let process_completed : ℚ := if "Generate Invoice" ∈ activities then 1 else 0
  let completeness : ℚ :=
    min ((activities.length : ℚ) / (BASELINE_ACTIVITIES.length : ℚ)) 2
  let rejection_position : ℚ :=
    if "Reject Order" ∈ activities then
      ((pyIndexAux "Reject Order" activities 0 : ℚ) /
        (max activities.length 1 : ℚ))
    else 0
  let generates_revenue : ℚ :=
    if "Ship Order" ∈ activities ∧ "Generate Invoice" ∈ activities then 1
    else 0
  let has_discount : ℚ := if "Apply Discount" ∈ activities then 1 else 0
  [has_rejection, has_return, has_cancellation, process_completed,
    completeness, rejection_position, generates_revenue, has_discount]

/-- extract_features_for_order (train_model.py): the five blocks of the
scenario encoder computed from an event sequence, followed by the 8 outcome
features — 417 dimensions. -/
def extract_features_for_order (events : List (String × ℚ))
    (users : List EntityId) (items : List ItemData)
    (suppliers : List EntityId) : Except String (List ℚ) :=
  match buildIndicatorAux (trainEntityIdNum "U") 7 (fun _ => 0) users with
  | .error e => .error e
  | .ok user_vector =>
    match buildItemsAux (trainEntityIdNum "I") (fun _ => (0, 0)) items with
    | .error e => .error e
    | .ok items_matrix =>
      match buildIndicatorAux (trainEntityIdNum "S") 16 (fun _ => 0)
          suppliers with
      | .error e => .error e
      | .ok supplier_vector =>
        .ok (matFlatten (train_freq_matrix events) ++
          matFlatten (train_duration_matrix events) ++
          vecFlatten user_vector 7 ++
          itemsFlatten items_matrix ++
          vecFlatten supplier_vector 16 ++
          outcome_features (events.map Prod.fst))

lemma train_extract_ok_shape (events : List (String × ℚ))
    (users : List EntityId) (items : List ItemData)
    (suppliers : List EntityId) (v : List ℚ)
    (h : extract_features_for_order events users items suppliers = .ok v) :
    ∃ uv im sv,
      v = matFlatten (train_freq_matrix events) ++
        matFlatten (train_duration_matrix events) ++
        vecFlatten uv 7 ++ itemsFlatten im ++ vecFlatten sv 16 ++
        outcome_features (events.map Prod.fst) := by
  unfold extract_features_for_order at h
  rcases hu : buildIndicatorAux (trainEntityIdNum "U") 7 (fun _ => 0) users
    with e | uv <;> rw [hu] at h
  · cases h
  rcases hi : buildItemsAux (trainEntityIdNum "I") (fun _ => (0, 0)) items
    with e | im <;> rw [hi] at h
  · cases h
  rcases hs : buildIndicatorAux (trainEntityIdNum "S") 16 (fun _ => 0)
    suppliers with e | sv <;> rw [hs] at h
  · cases h
  cases h
  exact ⟨uv, im, sv, rfl⟩

/-- C3 (amended): the inference-time Feature Encoder
(extract_features_from_scenario) emits exactly the five blocks — frequency
matrix, duration matrix, user indicator, item quantity/amount matrix, supplier
indicator — and its vectors always have length 409 with NO structural outcome
block; the 8 structural outcome indicators are appended only by the
training-time extractor (train_model.extract_features_for_order), whose
vectors have length 417 and end with exactly the outcome block. -/
theorem outcome_block_only_in_training_extractor :
    (∀ (activities : List String) (edges : List Edge)
        (users : List EntityId) (items : List ItemData)
        (suppliers : List EntityId) (v : List ℚ),
      extract_features_from_scenario activities edges users items suppliers =
        .ok v → v.length = TOTAL_FEATURE_DIM) ∧
    (∀ (events : List (String × ℚ)) (users : List EntityId)
        (items : List ItemData) (suppliers : List EntityId) (v : List ℚ),
      extract_features_for_order events users items suppliers = .ok v →
        v.length = 417 ∧
        v.drop TOTAL_FEATURE_DIM = outcome_features (events.map Prod.fst)) := by
  constructor
  · exact fun activities edges users items suppliers v h =>
      extract_ok_length activities edges users items suppliers v h
  · intro events users items suppliers v h
    obtain ⟨uv, im, sv, hv⟩ :=
      train_extract_ok_shape events users items suppliers v h
    have hblocks : v =
        (matFlatten (train_freq_matrix events) ++
          matFlatten (train_duration_matrix events) ++
          vecFlatten uv 7 ++ itemsFlatten im ++ vecFlatten sv 16) ++
        outcome_features (events.map Prod.fst) := by
      rw [hv]
    have hlen : (matFlatten (train_freq_matrix events) ++
        matFlatten (train_duration_matrix events) ++
        vecFlatten uv 7 ++ itemsFlatten im ++ vecFlatten sv 16).length =
        TOTAL_FEATURE_DIM := by
      simp only [List.length_append, matFlatten, vecFlatten, itemsFlatten,
        List.length_map, List.length_range]
      rfl
    constructor
    · rw [hblocks, List.length_append, hlen]
      rfl
    · rw [hblocks, ← hlen, List.drop_left]

set_option maxRecDepth 16384 in
/-- Witness for C3 at the empty order: the training-time vector has length 417
and its tail past index 409 is the outcome block. -/
theorem outcome_block_witness :
    (List.replicate 417 (0 : ℚ)).length = 417 ∧
    (List.replicate 417 (0 : ℚ)).drop TOTAL_FEATURE_DIM =
      outcome_features (([] : List (String × ℚ)).map Prod.fst) :=
  outcome_block_only_in_training_extractor.2 [] [] [] []
    (List.replicate 417 0) (by with_unfolding_all rfl)

set_option maxRecDepth 16384 in
/-- C3 counterexample: the Feature Encoder of feature_extraction.py returns a
409-dimensional vector, not a 417-dimensional one — the structural outcome
block is absent from it. -/
theorem scenario_encoder_length_is_409_not_417 :
    (extract_features_from_scenario [] [] [] [] []).map List.length =
      .ok TOTAL_FEATURE_DIM ∧ TOTAL_FEATURE_DIM ≠ 417 := by
  constructor
  · with_unfolding_all rfl
  · decide

/-- The global `random` module generator state (scenario_generator.py calls
`random.seed(seed)` and then draws from the module-level generator).  The
Mersenne-Twister internals are abstracted to a linear-congruential model; the
properties proved below depend only on the state being overwritten by the
seed and every draw being a pure function of the state. -/
abbrev RandState : Type := Nat

/-- `random.seed(seed)`: the state after seeding depends only on the seed. -/
def seedState (seed : Nat) : RandState := seed

/-- One raw draw from the generator. -/
def randNext (s : RandState) : Nat × RandState :=
  let t := (s * 1103515245 + 12345) % 2 ^ 31
  (t, t)

/-- Selection loop of `random.sample(pool, k)`: draw an index into the
remaining pool, remove the chosen element, recurse. -/
def sampleAux (g : RandState) (pool : List Nat) : Nat → List Nat × RandState
  | 0 => ([], g)
  | k + 1 =>
    if pool.isEmpty then ([], g)
    else
      let r := randNext g
      let idx := r.1 % pool.length
      let x := pool.getD idx 0
      let rest := sampleAux r.2 (pool.eraseIdx idx) k
      (x :: rest.1, rest.2)

/-- `random.sample(range(lo, hi), k)`. -/
def randomSample (g : RandState) (lo hi k : Nat) : List Nat × RandState :=
  sampleAux g ((List.range (hi - lo)).map (lo + ·)) k

/-- Zero-padding of `f'{num:03d}'`. -/
def pad3 (n : Nat) : String :=
  let s := toString n
  if s.length ≥ 3 then s
  else String.mk (List.replicate (3 - s.length) (Char.ofNat 48)) ++ s

/-- `f'U{num:03d}'` and friends. -/
def formatId (pfx : String) (n : Nat) : String := pfx ++ pad3 n

/-- One row of items.csv (the reference table), keyed by formatted item id. -/
structure ItemRow where
  name : String
  category : String
  unit_price : ℚ

/-- CATEGORY_SUPPLIER_MAP with its `.get(category, [13, 14, 15, 16])`. -/
def categorySupplierMap (c : String) : List Nat :=
  if c = "Electronics" then [1, 2, 3, 4]
  else if c = "Office Supplies" then [5, 6, 7, 8]
  else if c = "Furniture" then [9, 10, 11, 12]
  else if c = "Others" then [13, 14, 15, 16]
  else [13, 14, 15, 16]

/-- Body of the per-item loop of generate_scenario_entities: deterministic
quantity `3 + hash(item_id) % 3`, line_total = quantity * unit_price, append
the item dict and accumulate order_value. -/
def scenarioItemStep (strHash : String → Nat) (itemsTable : String → ItemRow)
    (acc : List ItemData × ℚ) (iid : String) : List ItemData × ℚ :=
  let row := itemsTable iid
  let quantity : ℚ := ((3 + strHash iid % 3 : Nat) : ℚ)
  let line_total := quantity * row.unit_price
  let item : ItemData :=
    { item_id := some (.str iid)
      name := some row.name
      category := some row.category
      quantity := some quantity
      unit_price := some row.unit_price
      line_total := some line_total }
  (acc.1 ++ [item], acc.2 + line_total)

/-- ScenarioGenerator.generate_scenario_entities.  `strHash` models Python's
process-fixed `hash` on strings; `itemsTable` models the items_df lookup by
formatted item id (reference tables are loaded once and fixed); `g` is the
incoming global random-generator state, which the function overwrites via
`random.seed(seed)`.  Returns ((user_ids, items_data, supplier_ids,
order_value), final generator state).  The final `sorted(...)` over
`f'S{num:03d}'` strings is realized by sorting the numbers: zero-padded
formatting is monotone on 1..16. -/
def generate_scenario_entities (strHash : String → Nat)
    (itemsTable : String → ItemRow) (_g : RandState)
    (activities : List String) (num_users num_items : Option Nat)
    (session_seed : Option Nat) :
    (List String × List ItemData × List String × ℚ) × RandState :=
  let seed := match session_seed with
    | some s => s
    | none =>
      strHash (String.intercalate "|"
        (activities.mergeSort (fun a b => decide (a ≤ b)))) % 2 ^ 31
  let g0 := seedState seed
  let nu := num_users.getD 3
  let usersDraw := randomSample g0 1 8 (min nu 7)
  let user_ids := usersDraw.1.map (formatId "U")
  let ni := num_items.getD 5
  let itemsDraw := randomSample usersDraw.2 1 25 (min ni 24)
  let selected_item_ids := itemsDraw.1.map (formatId "I")
  let itemsAcc :=
    selected_item_ids.foldl (scenarioItemStep strHash itemsTable) ([], 0)
  let supplier_nums := itemsAcc.1.foldl (fun (acc : List Nat) it =>
    let category := it.category.getD ""
    let possible := categorySupplierMap category
    let iid := match it.item_id with
      | some (.str s) => s
      | _ => ""
    let sidx := strHash (iid ++ category) % possible.length
    let sel := possible.getD sidx 0
    if sel ∈ acc then acc else acc ++ [sel]) []
  let supplier_ids :=
    (supplier_nums.mergeSort (fun a b => decide (a ≤ b))).map (formatId "S")
  ((user_ids, itemsAcc.1, supplier_ids, itemsAcc.2), itemsDraw.2)

lemma quantity_cases (h : Nat) :
    ((3 + h % 3 : Nat) : ℚ) = 3 ∨ ((3 + h % 3 : Nat) : ℚ) = 4 ∨
      ((3 + h % 3 : Nat) : ℚ) = 5 := by
  have h3 : h % 3 = 0 ∨ h % 3 = 1 ∨ h % 3 = 2 := by omega
  rcases h3 with h3 | h3 | h3 <;> rw [h3] <;> norm_num

lemma itemsFold_quantity (strHash : String → Nat)
    (itemsTable : String → ItemRow) :
    ∀ (ids : List String) (acc : List ItemData × ℚ),
      (∀ it ∈ acc.1, it.quantity = some 3 ∨ it.quantity = some 4 ∨
        it.quantity = some 5) →
      ∀ it ∈ (ids.foldl (scenarioItemStep strHash itemsTable) acc).1,
        it.quantity = some 3 ∨ it.quantity = some 4 ∨ it.quantity = some 5 := by
  intro ids
  induction ids with
  | nil => exact fun acc hacc it hit => hacc it hit
  | cons iid rest ih =>
    intro acc hacc it hit
    refine ih (scenarioItemStep strHash itemsTable acc iid) ?_ it hit
    intro it2 hit2
    unfold scenarioItemStep at hit2
    simp only [List.mem_append, List.mem_singleton] at hit2
    rcases hit2 with hit2 | hit2
    · exact hacc it2 hit2
    · subst hit2
      simpa using quantity_cases (strHash iid)

/-- C4: with the reference tables and the in-process string hash fixed, the
entity assignment returned by generate_scenario_entities does not depend on
the incoming global random state at all (random.seed(seed) overwrites it), so
any two calls with the same seed and activities return identical user ids,
identical item records, identical supplier ids and identical order value; and
every generated item record carries the derived quantity 3, 4 or 5. -/
theorem scenario_generator_deterministic :
    (∀ (strHash : String → Nat) (itemsTable : String → ItemRow)
        (g1 g2 : RandState) (activities : List String)
        (num_users num_items : Option Nat) (session_seed : Option Nat),
      (generate_scenario_entities strHash itemsTable g1 activities num_users
        num_items session_seed).1 =
      (generate_scenario_entities strHash itemsTable g2 activities num_users
        num_items session_seed).1) ∧
    (∀ (strHash : String → Nat) (itemsTable : String → ItemRow)
        (g : RandState) (activities : List String)
        (num_users num_items : Option Nat) (session_seed : Option Nat)
        (it : ItemData),
      it ∈ (generate_scenario_entities strHash itemsTable g activities
        num_users num_items session_seed).1.2.1 →
      it.quantity = some 3 ∨ it.quantity = some 4 ∨ it.quantity = some 5) := by
  constructor
  · intro strHash itemsTable g1 g2 activities nu ni seed
    rfl
  · intro strHash itemsTable g activities nu ni seed it hmem
    simp only [generate_scenario_entities] at hmem
    exact itemsFold_quantity strHash itemsTable _ ([], 0)
      (fun it2 hit2 => absurd hit2 (by simp)) it hmem

/-- Reference table used by the C4 witness: every id maps to one fixed row. -/
def witnessTable : String → ItemRow := fun _ => ⟨"Item", "Electronics", 10⟩

/-- The item record generated by the C4 witness call. -/
def witnessItem : ItemData :=
  ⟨some (.str "I004"), some "Item", some "Electronics", some 3, some 10,
    some 30⟩

/-- Witness for C4: two calls differing only in the incoming generator state
(0 vs 123) agree, and the concrete generated item has quantity 3. -/
theorem scenario_generator_deterministic_witness :
    ((generate_scenario_entities (fun _ => 0) witnessTable 0 [] none (some 1)
        (some 7)).1 =
      (generate_scenario_entities (fun _ => 0) witnessTable 123 [] none
        (some 1) (some 7)).1) ∧
    (witnessItem ∈ (generate_scenario_entities (fun _ => 0) witnessTable 0 []
      none (some 1) (some 7)).1.2.1) ∧
    (witnessItem.quantity = some 3 ∨ witnessItem.quantity = some 4 ∨
      witnessItem.quantity = some 5) :=
  ⟨scenario_generator_deterministic.1 (fun _ => 0) witnessTable 0 123 [] none
      (some 1) (some 7),
    by with_unfolding_all decide,
    scenario_generator_deterministic.2 (fun _ => 0) witnessTable 0 [] none
      (some 1) (some 7) witnessItem (by with_unfolding_all decide)⟩

/-- The five named KPI values (source: KPI_NAMES of ml_model.py, and the
kpi fields of the simulate response in main.py). -/
structure KpiRecord where
  on_time_delivery : ℚ
  days_sales_outstanding : ℚ
  order_accuracy : ℚ
  invoice_accuracy : ℚ
  avg_cost_delivery : ℚ
deriving DecidableEq

/-- The per-activity dict of request.graph.kpis; only avg_time is read by the
baseline check, with `kpi_vals.get('avg_time', 2.0)`. -/
structure ActivityKpi where
  avg_time : Option ℚ := none
deriving DecidableEq

def kpiAvgTime (k : ActivityKpi) : ℚ := k.avg_time.getD 2

/-- `baseline_kpis_data.get(activity, {}).get('avg_time', 2.0)` where
`bdata` is the per-activity avg_time map computed from the data loader. -/
def baselineAvgTime (bdata : String → Option ℚ) (a : String) : ℚ :=
  (bdata a).getD 2

/-- `sorted(activities) == sorted(baseline_activities)` (main.py). -/
def is_baseline_activities (activities baseline : List String) : Bool :=
  decide (activities.mergeSort (fun a b => decide (a ≤ b)) =
    baseline.mergeSort (fun a b => decide (a ≤ b)))

/-- The `has_baseline_kpis` flag of simulate_process: stays True unless the
loop over request.graph.kpis (entered only when the activities match and the
dict is non-empty) finds an avg_time more than 0.5 h away from the baseline
value. -/
def has_baseline_kpis (activities baseline : List String)
    (graphKpis : List (String × ActivityKpi)) (bdata : String → Option ℚ) :
    Bool :=
  if is_baseline_activities activities baseline = true ∧ graphKpis ≠ [] then
    graphKpis.all (fun p =>
      decide (|kpiAvgTime p.2 - baselineAvgTime bdata p.1| ≤ 1 / 2))
  else true

/-- `is_baseline_process = is_baseline_activities and has_baseline_kpis`. -/
def is_baseline_process (activities baseline : List String)
    (graphKpis : List (String × ActivityKpi)) (bdata : String → Option ℚ) :
    Bool :=
  is_baseline_activities activities baseline &&
    has_baseline_kpis activities baseline graphKpis bdata

/-- The current-KPI selection of simulate_process step 5: the precomputed
baseline record for the exact baseline process, otherwise the raw model
prediction (predicted_kpis_raw). -/
def simulate_current_kpis (activities baseline : List String)
    (graphKpis : List (String × ActivityKpi)) (bdata : String → Option ℚ)
    (rawPred baselineRecord : KpiRecord) : KpiRecord :=
  if is_baseline_process activities baseline graphKpis bdata = true then
    baselineRecord
  else rawPred

lemma mergeSort_eq_iff_perm (l1 l2 : List String) :
    l1.mergeSort (fun a b => decide (a ≤ b)) =
      l2.mergeSort (fun a b => decide (a ≤ b)) ↔ l1.Perm l2 := by
  constructor
  · intro h
    have h1 := (List.mergeSort_perm l1 (fun a b => decide (a ≤ b))).symm
    rw [h] at h1
    exact h1.trans (List.mergeSort_perm l2 _)
  · intro hp
    have hsort : ∀ l : List String,
        (l.mergeSort (fun a b => decide (a ≤ b))).Sorted (· ≤ ·) := by
      intro l
      have h := @List.sorted_mergeSort String
        (fun a b : String => decide (a ≤ b))
        (fun a b c hab hbc => by
          simp only [decide_eq_true_iff] at hab hbc ⊢
          exact le_trans hab hbc)
        (fun a b => by
          simp only [Bool.or_eq_true, decide_eq_true_iff]
          exact le_total a b) l
      exact h.imp (fun hab => by simpa using hab)
    have hperm : (l1.mergeSort (fun a b => decide (a ≤ b))).Perm
        (l2.mergeSort (fun a b => decide (a ≤ b))) :=
      ((List.mergeSort_perm l1 _).trans hp).trans
        (List.mergeSort_perm l2 _).symm
    exact List.eq_of_perm_of_sorted hperm (hsort l1) (hsort l2)

/-- C2: when the supplied activities are the same multiset as the baseline
variant and every entry of the supplied per-activity KPIs has avg_time within
0.5 h of the baseline value, simulate_process returns the precomputed baseline
KPI record as the current KPIs (the raw model output is discarded); whenever
either check fails, it returns the model's raw prediction. -/
theorem simulate_baseline_short_circuit :
    (∀ (activities baseline : List String)
        (graphKpis : List (String × ActivityKpi))
        (bdata : String → Option ℚ) (rawPred baselineRecord : KpiRecord),
      activities.Perm baseline →
      (∀ p ∈ graphKpis,
        |kpiAvgTime p.2 - baselineAvgTime bdata p.1| ≤ 1 / 2) →
      simulate_current_kpis activities baseline graphKpis bdata rawPred
        baselineRecord = baselineRecord) ∧
    (∀ (activities baseline : List String)
        (graphKpis : List (String × ActivityKpi))
        (bdata : String → Option ℚ) (rawPred baselineRecord : KpiRecord),
      (¬ activities.Perm baseline ∨
        ∃ p ∈ graphKpis,
          ¬ |kpiAvgTime p.2 - baselineAvgTime bdata p.1| ≤ 1 / 2) →
      simulate_current_kpis activities baseline graphKpis bdata rawPred
        baselineRecord = rawPred) := by
  constructor
  · intro activities baseline graphKpis bdata rawPred baselineRecord hperm htol
    have hact : is_baseline_activities activities baseline = true := by
      simp only [is_baseline_activities, decide_eq_true_iff]
      exact (mergeSort_eq_iff_perm activities baseline).mpr hperm
    have hkpis : has_baseline_kpis activities baseline graphKpis bdata =
        true := by
      unfold has_baseline_kpis
      split
      · rw [List.all_eq_true]
        intro p hp
        exact decide_eq_true (htol p hp)
      · rfl
    unfold simulate_current_kpis is_baseline_process
    rw [hact, hkpis]
    rfl
  · intro activities baseline graphKpis bdata rawPred baselineRecord hfail
    unfold simulate_current_kpis is_baseline_process
    rcases hfail with hnp | ⟨p, hp, htol⟩
    · have hact : is_baseline_activities activities baseline = false := by
        simp only [is_baseline_activities, decide_eq_false_iff_not]
        intro h
        exact hnp ((mergeSort_eq_iff_perm activities baseline).mp h)
      rw [hact]
      rfl
    · by_cases hact : is_baseline_activities activities baseline = true
      · have hkpis : has_baseline_kpis activities baseline graphKpis bdata =
            false := by
          unfold has_baseline_kpis
          rw [if_pos ⟨hact, by rintro rfl; cases hp⟩]
          rw [List.all_eq_false]
          exact ⟨p, hp, by simpa using htol⟩
        rw [hact, hkpis]
        rfl
      · rw [Bool.not_eq_true] at hact
        rw [hact]
        rfl

/-- Witness for C2: a permuted baseline list with an in-tolerance timing entry
short-circuits to the baseline record; a disturbed timing entry falls through
to the raw prediction. -/
theorem simulate_baseline_short_circuit_witness :
    simulate_current_kpis ["Ship Order", "Pack Items"]
        ["Pack Items", "Ship Order"] [("Pack Items", ⟨some (5 / 2)⟩)]
        (fun _ => some 2) ⟨1, 2, 3, 4, 5⟩ ⟨9, 8, 7, 6, 5⟩ = ⟨9, 8, 7, 6, 5⟩ ∧
    simulate_current_kpis ["Ship Order", "Pack Items"]
        ["Pack Items", "Ship Order"] [("Pack Items", ⟨some 4⟩)]
        (fun _ => some 2) ⟨1, 2, 3, 4, 5⟩ ⟨9, 8, 7, 6, 5⟩ = ⟨1, 2, 3, 4, 5⟩ :=
  ⟨simulate_baseline_short_circuit.1 _ _ _ _ _ _
      (by decide)
      (by
        intro p hp
        simp only [List.mem_singleton] at hp
        subst hp
        show |(5 / 2 : ℚ) - 2| ≤ 1 / 2
        rw [abs_le]
        constructor <;> norm_num),
    simulate_baseline_short_circuit.2 _ _ _ _ _ _
      (Or.inr ⟨("Pack Items", ⟨some 4⟩), by decide, by
        show ¬ |(4 : ℚ) - 2| ≤ 1 / 2
        rw [abs_le]
        norm_num⟩)⟩

/-- SimulationResponse (main.py): five baseline KPI fields, five current KPI
fields, a confidence value and a text summary — these are all its fields; in
particular there is no boolean baseline-flag field. -/
structure SimulationResponse where
  baseline_on_time_delivery : ℚ
  baseline_days_sales_outstanding : ℚ
  baseline_order_accuracy : ℚ
  baseline_invoice_accuracy : ℚ
  baseline_avg_cost_delivery : ℚ
  on_time_delivery : ℚ
  days_sales_outstanding : ℚ
  order_accuracy : ℚ
  invoice_accuracy : ℚ
  avg_cost_delivery : ℚ
  confidence : ℚ
  summary : String
deriving DecidableEq

/-- The response built on the ML path of simulate_process (steps 5-9):
current KPIs are the baseline record on a short-circuit, else the raw model
prediction; `confidence = 0.85` is fixed on this path either way. -/
def ml_simulation_response (activities baseline : List String)
    (graphKpis : List (String × ActivityKpi)) (bdata : String → Option ℚ)
    (rawPred baselineKpis : KpiRecord) (summary : String) :
    SimulationResponse :=
  let predicted := simulate_current_kpis activities baseline graphKpis bdata
    rawPred baselineKpis
  ⟨baselineKpis.on_time_delivery, baselineKpis.days_sales_outstanding,
    baselineKpis.order_accuracy, baselineKpis.invoice_accuracy,
    baselineKpis.avg_cost_delivery, predicted.on_time_delivery,
    predicted.days_sales_outstanding, predicted.order_accuracy,
    predicted.invoice_accuracy, predicted.avg_cost_delivery, 85 / 100,
    summary⟩

/-- The degraded fallback response of simulate_process (ML unavailable):
baseline KPIs for both blocks, `confidence = 0.5`. -/
def fallback_simulation_response (baselineKpis : KpiRecord) :
    SimulationResponse :=
  ⟨baselineKpis.on_time_delivery, baselineKpis.days_sales_outstanding,
    baselineKpis.order_accuracy, baselineKpis.invoice_accuracy,
    baselineKpis.avg_cost_delivery, baselineKpis.on_time_delivery,
    baselineKpis.days_sales_outstanding, baselineKpis.order_accuracy,
    baselineKpis.invoice_accuracy, baselineKpis.avg_cost_delivery, 1 / 2,
    "ML model not available. Showing baseline KPIs. Please train the model first."⟩

/-- C8 counterexample: a baseline short-circuit response and a live-prediction
response carry the SAME confidence 0.85 — the baseline short-circuit is not
marked by any lower confidence (and SimulationResponse carries no boolean
baseline-flag field at all, as its declaration shows). -/
theorem baseline_short_circuit_confidence_not_lower :
    is_baseline_process ["Pack Items"] ["Pack Items"] [] (fun _ => none) =
      true ∧
    is_baseline_process ["Ship Order"] ["Pack Items"] [] (fun _ => none) =
      false ∧
    (ml_simulation_response ["Pack Items"] ["Pack Items"] [] (fun _ => none)
      ⟨1, 2, 3, 4, 5⟩ ⟨9, 8, 7, 6, 5⟩ "s").confidence =
    (ml_simulation_response ["Ship Order"] ["Pack Items"] [] (fun _ => none)
      ⟨1, 2, 3, 4, 5⟩ ⟨9, 8, 7, 6, 5⟩ "s").confidence := by
  refine ⟨by with_unfolding_all decide, by with_unfolding_all decide, rfl⟩

/-- C8 (amended): the simulate response carries no boolean baseline-flag; the
only distinguishing field is `confidence`, which is 0.85 on the whole ML path
(live prediction AND baseline short-circuit alike) and 0.5 on the degraded
baseline-only fallback path — so only the degraded fallback carries a strictly
lower confidence than a live prediction. -/
theorem response_confidence_policy :
    (∀ (activities baseline : List String)
        (graphKpis : List (String × ActivityKpi))
        (bdata : String → Option ℚ) (rawPred baselineKpis : KpiRecord)
        (summary : String),
      (ml_simulation_response activities baseline graphKpis bdata rawPred
        baselineKpis summary).confidence = 85 / 100) ∧
    (∀ baselineKpis : KpiRecord,
      (fallback_simulation_response baselineKpis).confidence = 1 / 2) ∧
    (1 : ℚ) / 2 < 85 / 100 := by
  refine ⟨fun _ _ _ _ _ _ _ => rfl, fun _ => rfl, by norm_num⟩

/-- The exception repertoire raised by the model-lifecycle code (ml_model.py):
the built-in ValueError raised by ModelManager.predict, and the
NotImplementedError raised by ModelManager._train_model.  No custom
InitializationError class exists anywhere in the repository. -/
inductive PyErr where
  | valueError (msg : String)
  | notImplementedError (msg : String)
deriving DecidableEq

/-- KPI_MULTIPLIERS = [100, 90, 100, 100, 100] (ml_model.py). -/
def KPI_MULTIPLIERS : List ℚ := [100, 90, 100, 100, 100]

/-- denormalize_kpi (ml_model.py). -/
def denormalize_kpi (normalized_value : ℚ) (kpi_index : Nat) : ℚ :=
  normalized_value * KPI_MULTIPLIERS.getD kpi_index 0

/-- ModelManager.predict: `if self.model is None: raise ValueError(...)`;
otherwise delegate to predict_kpis, which denormalizes each of the five
outputs of the loaded model. -/
def manager_predict (model : Option (List ℚ → List ℚ)) (feature_vector :
    List ℚ) : Except PyErr (List ℚ) :=
  match model with
  | none =>
    .error (.valueError "Model not initialized. Call initialize() first.")
  | some m =>
    .ok ((m feature_vector).enum.map (fun p => denormalize_kpi p.2 p.1))

/-- C5 counterexample: predict before initialization raises the generic
built-in ValueError, not a distinguishable typed InitializationError (no such
class exists in the code, as the PyErr repertoire shows). -/
theorem predict_uninitialized_is_generic_valueerror :
    manager_predict none [] =
      .error (.valueError "Model not initialized. Call initialize() first.") :=
  rfl

/-- C5 (amended): calling predict with the model still None never returns a
value — it raises ValueError("Model not initialized. Call initialize()
first."), a generic built-in exception distinguishable only by its type and
message. -/
theorem predict_uninitialized_raises :
    ∀ feature_vector : List ℚ,
      manager_predict none feature_vector =
        .error
          (.valueError "Model not initialized. Call initialize() first.") :=
  fun _ => rfl
